import Mathlib

/-!
Verification of the Chain Checkpoint Client of the tamperproof-logistics-tracker
repository, shallowly embedded from `streamlit_app/web3_utils.py` and
`scripts/simulate_delivery.py`.  Network interactions (balance query, gas
estimation, nonce read, broadcast, receipt wait, contract calls) are modelled
as oracle parameters of type `Except`, mirroring which Python calls can raise;
each embedded operation also returns the list of network operations it
performed, so that "no network call is made" claims are statable.
-/

/-- The characters Python's `str.strip()` removes from ASCII text. -/
def isPySpace (c : Char) : Bool :=
  c == ' ' || c == '\t' || c == '\n' || c == '\r' || c == '\x0b' || c == '\x0c'

/-- Python's `s.strip()` on ASCII text: drop whitespace from both ends. -/
def pyStrip (s : String) : String :=
  String.mk (((s.data.dropWhile isPySpace).reverse.dropWhile isPySpace).reverse)

/-- Python blank test used throughout `web3_utils.py`:
`not s or not s.strip()` — true when the string is empty or whitespace-only. -/
def pyBlank (s : String) : Bool := s == "" || pyStrip s == ""

/-- Lower-casing as Python's `str.lower()` on ASCII text (used by the
error-message classification in the `except` branches). -/
def lowerStr (s : String) : String := String.mk (s.data.map Char.toLower)

/-- Substring test modelling Python's `in` operator on strings:
`pat in s` holds iff `pat` occurs contiguously in `s`. -/
def strContainsSub (s pat : String) : Bool :=
  (List.range (s.data.length + 1)).any (fun i => pat.data.isPrefixOf (s.data.drop i))

/-- The network operations `Web3Manager.add_checkpoint` can perform, in the
order they appear in the source (lines 259–296 of `web3_utils.py`). -/
inductive NetOp where
  | getBalance
  | estimateGas
  | getTransactionCount
  | signTransaction
  | sendRawTransaction
  | waitForReceipt
  deriving DecidableEq

/-- A transaction receipt as used by `add_checkpoint` (fields read from the
web3 receipt object: `blockNumber`, `gasUsed`, `status`). -/
structure Receipt where
  blockNumber : Nat
  gasUsed : Nat
  status : Nat
  deriving DecidableEq

/-- The `tx_details` dictionary built at lines 299–306 of `web3_utils.py`.
`gasPriceGwei` is the fixed 20 gwei gas price converted back to gwei. -/
structure TxDetails where
  hash : String
  blockNumber : Nat
  gasUsed : Nat
  gasLimit : Nat
  gasPriceGwei : Nat
  status : Nat
  deriving DecidableEq

/-- The distinct messages `add_checkpoint` can return, one constructor per
`return` site in the source; formatted payloads (balances) are carried as
numbers instead of interpolated strings.
  `contractNotConnected` = "Smart contract not connected. Please reconnect to blockchain.";
  `accountNotLoaded` = "Account not loaded. Please check your private key configuration.";
  `emptyShipmentId` = "Shipment ID cannot be empty.";
  `emptyLocation` = "Location cannot be empty.";
  `emptyStatus` = "Status cannot be empty.";
  `insufficientBalance` = "Insufficient balance. Have: ... Need: ...";
  `added` = "Checkpoint added successfully!";  `txFailed` = "Transaction failed.";
  the `err*` constructors are the keyword-classified messages of the
  `except` branch at lines 313–328. -/
inductive AddMsg where
  | contractNotConnected
  | accountNotLoaded
  | emptyShipmentId
  | emptyLocation
  | emptyStatus
  | insufficientBalance (haveWei needWei : Nat)
  | added
  | txFailed
  | errInsufficientFunds
  | errNonce
  | errGas
  | errRevert
  | errUnauthorized
  | errOther (m : String)
  deriving DecidableEq

/-- Result triple of `add_checkpoint`: `(success, message, details)`, with the
empty dictionary `{}` modelled as `none`. -/
structure AddResult where
  success : Bool
  msg : AddMsg
  details : Option TxDetails
  deriving DecidableEq

/-- Oracle for the network calls `add_checkpoint` performs, in source order.
Each `Except.error m` models the corresponding Python call raising an
exception with message `m` (caught by the enclosing `try`).  Local signing is
modelled as infallible (it performs no network round-trip). -/
structure ChainEnv where
  balanceResult : Except String Nat
  gasEstimate : Except String Nat
  nonceResult : Except String Nat
  sendResult : Except String String
  receiptResult : Except String Receipt

/-- Connection state of the `Web3Manager` handle as read by `add_checkpoint`:
whether `self.contract` and `self.account` are set. -/
structure Handle where
  contractConnected : Bool
  accountLoaded : Bool
  deriving DecidableEq

/-- The advisory cost bound of line 262:
`estimated_cost = 2000000 * w3.to_wei('20', 'gwei')` = 2000000 · 20·10⁹ wei. -/
def estimatedCostWei : Nat := 2000000 * 20000000000

/-- Gas-limit selection of lines 270–277.  On a successful estimate `g` the
source computes `int(g * 1.2)`: the IEEE-754 double product is truncated
toward zero, which for every `g ≤ 2^48` equals `⌊6·g/5⌋` (the double nearest
1.2 is 1.2 − 2⁻⁵²/5; the product's deficit from the exact rational 6g/5 stays
below its distance to the next lower integer, and products at exact integers
round back up to them).  On an estimation failure the source falls back to
the fixed bound 2000000. -/
def gasLimitOf (est : Except String Nat) : Nat :=
  match est with
  | .ok g => 6 * g / 5
  | .error _ => 2000000

/-- Keyword classification of the `except` branch of `add_checkpoint`
(lines 313–328): the raised message is lower-cased and matched against
substrings in source order; every branch returns an empty details dict. -/
def classifyTxError (m : String) : AddMsg :=
  let l := lowerStr m
  if strContainsSub l "insufficient funds" then .errInsufficientFunds
  else if strContainsSub l "nonce" then .errNonce
  else if strContainsSub l "gas" then .errGas
  else if strContainsSub l "revert" then .errRevert
  else if strContainsSub l "unauthorized" || strContainsSub l "role" then .errUnauthorized
  else .errOther m

/-- Embedding of `Web3Manager.add_checkpoint` (web3_utils.py lines 241–328).
Returns the result triple together with the ordered list of network
operations performed.  The guard chain is the source's: contract, account,
shipment id, location, status; then balance guard, gas estimation (its own
`try`, falling back on failure), nonce read inside `build_transaction`,
sign + broadcast, receipt wait, and classification of the receipt status. -/
def add_checkpoint (h : Handle) (env : ChainEnv)
    (shipment_id location status _document_hash : String) :
    AddResult × List NetOp :=
  if h.contractConnected = false then (⟨false, .contractNotConnected, none⟩, [])
  else if h.accountLoaded = false then (⟨false, .accountNotLoaded, none⟩, [])
  else if pyBlank shipment_id then (⟨false, .emptyShipmentId, none⟩, [])
  else if pyBlank location then (⟨false, .emptyLocation, none⟩, [])
  else if pyBlank status then (⟨false, .emptyStatus, none⟩, [])
  else
    match env.balanceResult with
    | .error m => (⟨false, classifyTxError m, none⟩, [NetOp.getBalance])
    | .ok balance =>
      if balance < estimatedCostWei then
        (⟨false, .insufficientBalance balance estimatedCostWei, none⟩, [NetOp.getBalance])
      else
        let gas_limit := gasLimitOf env.gasEstimate
        match env.nonceResult with
        | .error m => (⟨false, classifyTxError m, none⟩,
            [NetOp.getBalance, NetOp.estimateGas, NetOp.getTransactionCount])
        | .ok _ =>
          match env.sendResult with
          | .error m => (⟨false, classifyTxError m, none⟩,
              [NetOp.getBalance, NetOp.estimateGas, NetOp.getTransactionCount,
               NetOp.signTransaction, NetOp.sendRawTransaction])
          | .ok txHash =>
            match env.receiptResult with
            | .error m => (⟨false, classifyTxError m, none⟩,
                [NetOp.getBalance, NetOp.estimateGas, NetOp.getTransactionCount,
                 NetOp.signTransaction, NetOp.sendRawTransaction, NetOp.waitForReceipt])
            | .ok receipt =>
              let details : TxDetails :=
                ⟨txHash, receipt.blockNumber, receipt.gasUsed, gas_limit, 20, receipt.status⟩
              if receipt.status = 1 then
                (⟨true, .added, some details⟩,
                 [NetOp.getBalance, NetOp.estimateGas, NetOp.getTransactionCount,
                  NetOp.signTransaction, NetOp.sendRawTransaction, NetOp.waitForReceipt])
              else
                (⟨false, .txFailed, some details⟩,
                 [NetOp.getBalance, NetOp.estimateGas, NetOp.getTransactionCount,
                  NetOp.signTransaction, NetOp.sendRawTransaction, NetOp.waitForReceipt])

/-- Read-side failure modes of `Web3Manager.get_checkpoint_count`
(web3_utils.py lines 221–239), one constructor per raised message. -/
inductive ReadErr where
  | notConnected
  | emptyShipmentId
  | reverted (sid : String)
  | timeout
  | other (m : String)
  deriving DecidableEq

/-- The key `get_checkpoint_count` passes to the contract call (line 230):
the whitespace-stripped shipment id. -/
def countQueryKey (shipment_id : String) : String := pyStrip shipment_id

/-- Embedding of `Web3Manager.get_checkpoint_count` (lines 221–239).
`connected` is whether `self.contract` is set; `call` is the contract call
`getCheckpointCount(key).call()` as a function of the queried key, raising
(`Except.error`) or returning a count. -/
def get_checkpoint_count (connected : Bool) (call : String → Except String Nat)
    (shipment_id : String) : Except ReadErr Nat :=
  if connected = false then .error .notConnected
  else if pyBlank shipment_id then .error .emptyShipmentId
  else
    match call (countQueryKey shipment_id) with
    | .ok n => .ok n
    | .error m =>
      let l := lowerStr m
      if strContainsSub l "execution reverted" then .error (.reverted shipment_id)
      else if strContainsSub l "timeout" then .error .timeout
      else .error (.other m)

/-- One on-chain checkpoint tuple as returned by `getShipmentHistory`
(fields in contract order; the Python wrapper additionally derives a display
field `formatted_time` from `timestamp`, which carries no extra state). -/
structure Checkpoint where
  shipmentId : String
  timestamp : Nat
  location : String
  status : String
  documentHash : String
  submittedBy : String
  deriving DecidableEq

/-- Read-side failure modes of `Web3Manager.get_shipment_history`
(lines 181–219), one constructor per raised message. -/
inductive HistErr where
  | notConnected
  | emptyShipmentId
  | reverted (sid : String)
  | timeout
  | connection
  | other (m : String)
  deriving DecidableEq

/-- The key `get_shipment_history` passes to the contract call (line 191):
the shipment id exactly as supplied, not stripped. -/
def historyQueryKey (shipment_id : String) : String := shipment_id

/-- Embedding of `Web3Manager.get_shipment_history` (lines 181–219):
validation, contract call on the unmodified id, and keyword classification
of a raised message. -/
def get_shipment_history (connected : Bool)
    (call : String → Except String (List Checkpoint)) (shipment_id : String) :
    Except HistErr (List Checkpoint) :=
  if connected = false then .error .notConnected
  else if pyBlank shipment_id then .error .emptyShipmentId
  else
    match call (historyQueryKey shipment_id) with
    | .ok cps => .ok cps
    | .error m =>
      let l := lowerStr m
      if strContainsSub l "execution reverted" then .error (.reverted shipment_id)
      else if strContainsSub l "timeout" then .error .timeout
      else if strContainsSub l "connection" then .error .connection
      else .error (.other m)

/-- One raw `CheckpointAdded` event entry as consumed by the formatting loop
of `get_recent_events` (lines 415–444).  `txDecode` is the outcome of the
per-event secondary lookup chain (fetch receipt → process logs → fetch
transaction → decode input → read the plaintext shipment id): `some id` when
every step succeeds, `none` when any step raises, the processed logs are
empty, or the decoded arguments lack the id (all of which the source maps to
the string "Unknown"). -/
structure RawEvent where
  txDecode : Option String
  timestamp : Nat
  location : String
  status : String
  submittedBy : String
  blockNumber : Nat
  transactionHash : String
  deriving DecidableEq

/-- One formatted event dictionary appended by the loop (lines 434–444);
the derived display strings `formatted_time` / `relative_time` are functions
of `timestamp` and wall-clock time and carry no extra state. -/
structure FormattedEvent where
  shipmentId : String
  timestamp : Nat
  location : String
  status : String
  submittedBy : String
  blockNumber : Nat
  transactionHash : String
  deriving DecidableEq

/-- Formatting of a single event in the loop body: the shipment id is the
decoded plaintext id, or "Unknown" when the secondary lookup failed; all
other fields are copied from the event log entry. -/
def formatEvent (e : RawEvent) : FormattedEvent :=
  { shipmentId := e.txDecode.getD "Unknown"
    timestamp := e.timestamp
    location := e.location
    status := e.status
    submittedBy := e.submittedBy
    blockNumber := e.blockNumber
    transactionHash := e.transactionHash }

/-- The page `events[-limit:]` iterated by the loop (line 415): the last
`limit` entries; Python's `events[-0:]` is the whole list. -/
def eventPage (events : List RawEvent) (limit : Nat) : List RawEvent :=
  if limit = 0 then events else events.drop (events.length - limit)

/-- Embedding of the formatting phase of `Web3Manager.get_recent_events`
(lines 410–446): each event of the page is formatted and appended; a failed
secondary lookup only affects that event's `shipmentId`. -/
def get_recent_events (events : List RawEvent) (limit : Nat) : List FormattedEvent :=
  (eventPage events limit).map formatEvent

/-- Scan ranges produced by the polling loop of
`Web3Manager.listen_for_new_events` (lines 462–482), one list entry per
observed head block: each iteration reads `current_block`; when it exceeds
`last_block` the iteration scans the inclusive block range
`[last_block + 1, current_block]` (the `get_recent_events(from_block=last_block+1)`
call) and sets `last_block := current_block`, otherwise it only sleeps. -/
def pollScanRanges (last : Nat) : List Nat → List (Nat × Nat)
  | [] => []
  | current :: rest =>
    if last < current then (last + 1, current) :: pollScanRanges current rest
    else pollScanRanges last rest

/-- The value of `last_block` after the loop has consumed the given head
observations, starting from `last`. -/
def finalLastBlock (last : Nat) : List Nat → Nat
  | [] => last
  | current :: rest =>
    if last < current then finalLastBlock current rest
    else finalLastBlock last rest

/-- How many of the scan ranges contain block `b`. -/
def scanCount (ranges : List (Nat × Nat)) (b : Nat) : Nat :=
  match ranges with
  | [] => 0
  | r :: rs => (if r.1 ≤ b ∧ b ≤ r.2 then 1 else 0) + scanCount rs b

/-- The loop guard of `poll_events` inside `listen_for_new_events`
(line 465): literally `while True`.  The loop consults no cancellation flag
or stop request of any kind, so the guard is the constant `true` whatever
shutdown request is pending. -/
def pollLoopGuard (_stopRequested : Bool) : Bool := true

/-- The polling thread is started with `daemon=True` (line 485): at process
exit it is killed abruptly, without waiting for an in-flight scan. -/
def pollThreadIsDaemon : Bool := true

/-- Whether the polling loop has stopped within `n` iterations given a
pending shutdown request: it stops only if its guard ever evaluates false. -/
def pollStopsWithin (stopRequested : Bool) : Nat → Bool
  | 0 => false
  | n + 1 =>
    if pollLoopGuard stopRequested = false then true
    else pollStopsWithin stopRequested n

/-- The lines printed by `Web3Manager._load_config` (web3_utils.py lines
38–69) as a function of the loaded configuration.  `dotenvReload` is the
path line printed when a `.env` file was reloaded (independent of the key).
The key itself is never interpolated: only the constant "Yes"/"No" marker of
whether one was loaded. -/
def loadConfigOutput (dotenvReload : Option String)
    (rpc_url private_key contract_address : String) : List String :=
  (match dotenvReload with
   | some p => ["🔄 Reloaded .env from " ++ p]
   | none => []) ++
  ["🔧 Debug - RPC_URL: " ++ rpc_url,
   "🔧 Debug - CONTRACT_ADDRESS: " ++ contract_address,
   "🔧 Debug - PRIVATE_KEY loaded: " ++ (if private_key = "" then "No" else "Yes")] ++
  (if private_key = "" then ["❌ PRIVATE_KEY not found in environment variables"]
   else if contract_address = "" then ["❌ CONTRACT_ADDRESS not found in environment variables"]
   else [])

/-- The lines printed by `SupplyChainSimulator.setup_account`
(scripts/simulate_delivery.py lines 119–155) on the path where the key is
present and account creation and the balance query succeed.  Line 132 prints
`private_key[:10]` — the first ten characters of the raw key — before the
`0x` normalisation; the remaining lines print the derived address and the
formatted balance (`balanceEthStr` stands for the `{balance_eth:.4f}`
rendering). -/
def setupAccountOutput (private_key address balanceEthStr : String)
    (balanceWei : Nat) : List String :=
  if private_key = "" then ["❌ PRIVATE_KEY not found in .env file"]
  else
    ("🔍 Debug: Private key from env: " ++ private_key.take 10 ++ "...") ::
    ("🔑 Account: " ++ address) ::
    ("💰 Balance: " ++ balanceEthStr ++ " ETH") ::
    (if balanceWei = 0 then ["⚠️  Warning: Account has zero balance!"] else [])

/-- C1: the precondition checks of `add_checkpoint` run in order — not-connected
(contract or account handle missing), then empty shipment id, then empty
location, then empty status — each returning its own distinct failure, and on
every such validation failure no network operation is performed (empty trace). -/
theorem c1_precondition_checks (h : Handle) (env : ChainEnv)
    (sid loc st dh : String) :
    (h.contractConnected = false →
      add_checkpoint h env sid loc st dh = (⟨false, .contractNotConnected, none⟩, [])) ∧
    (h.contractConnected = true → h.accountLoaded = false →
      add_checkpoint h env sid loc st dh = (⟨false, .accountNotLoaded, none⟩, [])) ∧
    (h.contractConnected = true → h.accountLoaded = true → pyBlank sid = true →
      add_checkpoint h env sid loc st dh = (⟨false, .emptyShipmentId, none⟩, [])) ∧
    (h.contractConnected = true → h.accountLoaded = true → pyBlank sid = false →
      pyBlank loc = true →
      add_checkpoint h env sid loc st dh = (⟨false, .emptyLocation, none⟩, [])) ∧
    (h.contractConnected = true → h.accountLoaded = true → pyBlank sid = false →
      pyBlank loc = false → pyBlank st = true →
      add_checkpoint h env sid loc st dh = (⟨false, .emptyStatus, none⟩, [])) := by
  refine ⟨?_, ?_, ?_, ?_, ?_⟩ <;> intros <;> simp [add_checkpoint, *]

/-- Witness for C1: each of the five validation branches exercised at a
concrete input, each yielding its distinct error and an empty call trace. -/
theorem c1_precondition_checks_witness :
    add_checkpoint ⟨false, false⟩ ⟨Except.ok 0, Except.ok 0, Except.ok 0, Except.ok "", Except.error ""⟩
      "S" "L" "created" "" = (⟨false, .contractNotConnected, none⟩, []) ∧
    add_checkpoint ⟨true, false⟩ ⟨Except.ok 0, Except.ok 0, Except.ok 0, Except.ok "", Except.error ""⟩
      "S" "L" "created" "" = (⟨false, .accountNotLoaded, none⟩, []) ∧
    add_checkpoint ⟨true, true⟩ ⟨Except.ok 0, Except.ok 0, Except.ok 0, Except.ok "", Except.error ""⟩
      "  " "L" "created" "" = (⟨false, .emptyShipmentId, none⟩, []) ∧
    add_checkpoint ⟨true, true⟩ ⟨Except.ok 0, Except.ok 0, Except.ok 0, Except.ok "", Except.error ""⟩
      "S" "" "created" "" = (⟨false, .emptyLocation, none⟩, []) ∧
    add_checkpoint ⟨true, true⟩ ⟨Except.ok 0, Except.ok 0, Except.ok 0, Except.ok "", Except.error ""⟩
      "S" "L" " " "" = (⟨false, .emptyStatus, none⟩, []) :=
  ⟨(c1_precondition_checks ⟨false, false⟩ _ "S" "L" "created" "").1 rfl,
   (c1_precondition_checks ⟨true, false⟩ _ "S" "L" "created" "").2.1 rfl rfl,
   (c1_precondition_checks ⟨true, true⟩ _ "  " "L" "created" "").2.2.1 rfl rfl (by decide),
   (c1_precondition_checks ⟨true, true⟩ _ "S" "" "created" "").2.2.2.1 rfl rfl (by decide) (by decide),
   (c1_precondition_checks ⟨true, true⟩ _ "S" "L" " " "").2.2.2.2 rfl rfl (by decide) (by decide) (by decide)⟩

/-- C5: with a connected handle and valid inputs, a balance below the
estimated maximum transaction cost (fallback gas limit 2000000 × 20 gwei)
makes `add_checkpoint` fail with the insufficient-balance error after only
the balance query — no sign and no broadcast occur. -/
theorem c5_balance_guard (h : Handle) (env : ChainEnv)
    (sid loc st dh : String) (b : Nat)
    (hc : h.contractConnected = true) (ha : h.accountLoaded = true)
    (hs : pyBlank sid = false) (hl : pyBlank loc = false) (hst : pyBlank st = false)
    (hb : env.balanceResult = Except.ok b) (hlt : b < estimatedCostWei) :
    add_checkpoint h env sid loc st dh =
      (⟨false, .insufficientBalance b estimatedCostWei, none⟩, [NetOp.getBalance]) ∧
    NetOp.signTransaction ∉ (add_checkpoint h env sid loc st dh).2 ∧
    NetOp.sendRawTransaction ∉ (add_checkpoint h env sid loc st dh).2 := by
  refine ⟨?_, ?_, ?_⟩ <;> simp [add_checkpoint, hc, ha, hs, hl, hst, hb, hlt]

/-- Witness for C5: a zero-balance account submitting a valid checkpoint is
rejected with the insufficient-balance error before any sign or send. -/
theorem c5_balance_guard_witness :
    add_checkpoint ⟨true, true⟩
        ⟨Except.ok 0, Except.ok 100000, Except.ok 0, Except.ok "0xabc123", Except.error "boom"⟩
        "SHIP123" "Factory" "created" "" =
      (⟨false, .insufficientBalance 0 estimatedCostWei, none⟩, [NetOp.getBalance]) ∧
    NetOp.signTransaction ∉ (add_checkpoint ⟨true, true⟩
        ⟨Except.ok 0, Except.ok 100000, Except.ok 0, Except.ok "0xabc123", Except.error "boom"⟩
        "SHIP123" "Factory" "created" "").2 ∧
    NetOp.sendRawTransaction ∉ (add_checkpoint ⟨true, true⟩
        ⟨Except.ok 0, Except.ok 100000, Except.ok 0, Except.ok "0xabc123", Except.error "boom"⟩
        "SHIP123" "Factory" "created" "").2 :=
  c5_balance_guard ⟨true, true⟩ _ "SHIP123" "Factory" "created" "" 0
    rfl rfl (by decide) (by decide) (by decide) rfl (by decide)

/-- Counterexample to C2 as stated: a submission whose broadcast returned the
transaction hash "0xabc123" but whose confirmation wait raised (a timeout)
returns a failure whose details dictionary is empty — the obtained hash is
not included in the result, so callers cannot look the transaction up. -/
theorem c2_hash_dropped_counterexample :
    (add_checkpoint ⟨true, true⟩
        ⟨Except.ok (10 ^ 18), Except.ok 100000, Except.ok 7, Except.ok "0xabc123",
          Except.error "is not in the chain after 120 seconds"⟩
        "SHIP123" "Factory" "created" "").1.details = none ∧
    (add_checkpoint ⟨true, true⟩
        ⟨Except.ok (10 ^ 18), Except.ok 100000, Except.ok 7, Except.ok "0xabc123",
          Except.error "is not in the chain after 120 seconds"⟩
        "SHIP123" "Factory" "created" "").1.success = false ∧
    NetOp.sendRawTransaction ∈ (add_checkpoint ⟨true, true⟩
        ⟨Except.ok (10 ^ 18), Except.ok 100000, Except.ok 7, Except.ok "0xabc123",
          Except.error "is not in the chain after 120 seconds"⟩
        "SHIP123" "Factory" "created" "").2 := by decide

/-- C2 as amended: the result of `add_checkpoint` carries the obtained
transaction hash exactly when a receipt was obtained — both on success and on
an on-chain revert (receipt status 0) the details include the hash — but when
an exception is raised after broadcast (for example a confirmation timeout)
the `except` branch returns an empty details dictionary, dropping the hash. -/
theorem c2_txhash_reporting (h : Handle) (env : ChainEnv)
    (sid loc st dh : String) (b nn : Nat) (hx : String)
    (hc : h.contractConnected = true) (ha : h.accountLoaded = true)
    (hs : pyBlank sid = false) (hl : pyBlank loc = false) (hst : pyBlank st = false)
    (hb : env.balanceResult = Except.ok b) (hge : estimatedCostWei ≤ b)
    (hn : env.nonceResult = Except.ok nn) (hsend : env.sendResult = Except.ok hx) :
    (∀ r : Receipt, env.receiptResult = Except.ok r →
      (add_checkpoint h env sid loc st dh).1.details =
        some ⟨hx, r.blockNumber, r.gasUsed, gasLimitOf env.gasEstimate, 20, r.status⟩) ∧
    (∀ m : String, env.receiptResult = Except.error m →
      (add_checkpoint h env sid loc st dh).1.details = none ∧
      NetOp.sendRawTransaction ∈ (add_checkpoint h env sid loc st dh).2) := by
  have hnlt : ¬ b < estimatedCostWei := Nat.not_lt.mpr hge
  constructor
  · intro r hr
    by_cases hst1 : r.status = 1 <;>
      simp [add_checkpoint, hc, ha, hs, hl, hst, hb, hnlt, hn, hsend, hr, hst1]
  · intro m hm
    simp [add_checkpoint, hc, ha, hs, hl, hst, hb, hnlt, hn, hsend, hm]

/-- Witness for C2 (amended): a reverted transaction (receipt status 0) still
reports the hash in its details, and a timed-out confirmation reports none. -/
theorem c2_txhash_reporting_witness :
    (add_checkpoint ⟨true, true⟩
        ⟨Except.ok (10 ^ 18), Except.ok 100000, Except.ok 7, Except.ok "0xabc123",
          Except.ok ⟨41, 30000, 0⟩⟩
        "SHIP123" "Factory" "created" "").1.details =
      some ⟨"0xabc123", (41 : Nat), (30000 : Nat),
        gasLimitOf (ChainEnv.gasEstimate ⟨Except.ok (10 ^ 18), Except.ok 100000, Except.ok 7,
          Except.ok "0xabc123", Except.ok ⟨41, 30000, 0⟩⟩), 20, (0 : Nat)⟩ ∧
    ((add_checkpoint ⟨true, true⟩
        ⟨Except.ok (10 ^ 18), Except.ok 100000, Except.ok 7, Except.ok "0xabc123",
          Except.error "is not in the chain after 120 seconds"⟩
        "SHIP123" "Factory" "created" "").1.details = none ∧
      NetOp.sendRawTransaction ∈ (add_checkpoint ⟨true, true⟩
        ⟨Except.ok (10 ^ 18), Except.ok 100000, Except.ok 7, Except.ok "0xabc123",
          Except.error "is not in the chain after 120 seconds"⟩
        "SHIP123" "Factory" "created" "").2) :=
  ⟨(c2_txhash_reporting ⟨true, true⟩ _ "SHIP123" "Factory" "created" "" (10 ^ 18) 7 "0xabc123"
      rfl rfl (by decide) (by decide) (by decide) rfl (by decide) rfl rfl).1 ⟨41, 30000, 0⟩ rfl,
   (c2_txhash_reporting ⟨true, true⟩ _ "SHIP123" "Factory" "created" "" (10 ^ 18) 7 "0xabc123"
      rfl rfl (by decide) (by decide) (by decide) rfl (by decide) rfl rfl).2
      "is not in the chain after 120 seconds" rfl⟩

/-- Counterexample to C6 as stated: for a successful gas estimate of 3 the
source computes `int(3 * 1.2)` = 3, whereas 3 multiplied by 1.2 rounded up
(ceiling, `(6·3 + 4) / 5`) is 4 — the declared gas limit is the truncated
product, not the ceiling. -/
theorem c6_gas_margin_counterexample :
    gasLimitOf (Except.ok 3) = 3 ∧ (6 * 3 + 4) / 5 = 4 ∧
    gasLimitOf (Except.ok 3) ≠ (6 * 3 + 4) / 5 := by decide

/-- C6 as amended: when gas estimation succeeds with estimate `g` (below
2^48, where the floating-point computation is exactly the rational
truncation) the transaction's declared gas limit is `g` multiplied by 1.2
truncated toward zero, i.e. `⌊6·g/5⌋`; when estimation fails the gas limit
falls back to the fixed bound 2000000. -/
theorem c6_gas_limit_selection (h : Handle) (env : ChainEnv)
    (sid loc st dh : String) (b nn : Nat) (hx : String) (r : Receipt)
    (hc : h.contractConnected = true) (ha : h.accountLoaded = true)
    (hs : pyBlank sid = false) (hl : pyBlank loc = false) (hst : pyBlank st = false)
    (hb : env.balanceResult = Except.ok b) (hge : estimatedCostWei ≤ b)
    (hn : env.nonceResult = Except.ok nn) (hsend : env.sendResult = Except.ok hx)
    (hr : env.receiptResult = Except.ok r) :
    (∀ g : Nat, env.gasEstimate = Except.ok g → g ≤ 2 ^ 48 →
      ∃ d : TxDetails, (add_checkpoint h env sid loc st dh).1.details = some d ∧
        d.gasLimit = 6 * g / 5 ∧ 5 * d.gasLimit ≤ 6 * g ∧ 6 * g < 5 * d.gasLimit + 5) ∧
    (∀ m : String, env.gasEstimate = Except.error m →
      ∃ d : TxDetails, (add_checkpoint h env sid loc st dh).1.details = some d ∧
        d.gasLimit = 2000000) := by
  have hnlt : ¬ b < estimatedCostWei := Nat.not_lt.mpr hge
  constructor
  · intro g hg _
    refine ⟨⟨hx, r.blockNumber, r.gasUsed, 6 * g / 5, 20, r.status⟩, ?_, rfl, ?_, ?_⟩
    · by_cases hst1 : r.status = 1 <;>
        simp [add_checkpoint, gasLimitOf, hc, ha, hs, hl, hst, hb, hnlt, hn, hsend, hr, hg, hst1]
    · show 5 * (6 * g / 5) ≤ 6 * g
      omega
    · show 6 * g < 5 * (6 * g / 5) + 5
      omega
  · intro m hm
    refine ⟨⟨hx, r.blockNumber, r.gasUsed, 2000000, 20, r.status⟩, ?_, rfl⟩
    by_cases hst1 : r.status = 1 <;>
      simp [add_checkpoint, gasLimitOf, hc, ha, hs, hl, hst, hb, hnlt, hn, hsend, hr, hm, hst1]

/-- Witness for C6 (amended): estimate 100000 yields declared gas limit
120000; a failed estimation yields the fallback 2000000. -/
theorem c6_gas_limit_selection_witness :
    (∃ d : TxDetails, (add_checkpoint ⟨true, true⟩
        ⟨Except.ok (10 ^ 18), Except.ok 100000, Except.ok 7, Except.ok "0xabc123",
          Except.ok ⟨41, 30000, 1⟩⟩
        "SHIP123" "Factory" "created" "").1.details = some d ∧
      d.gasLimit = 6 * 100000 / 5 ∧ 5 * d.gasLimit ≤ 6 * 100000 ∧
      6 * 100000 < 5 * d.gasLimit + 5) ∧
    (∃ d : TxDetails, (add_checkpoint ⟨true, true⟩
        ⟨Except.ok (10 ^ 18), Except.error "execution reverted", Except.ok 7,
          Except.ok "0xabc123", Except.ok ⟨41, 30000, 1⟩⟩
        "SHIP123" "Factory" "created" "").1.details = some d ∧
      d.gasLimit = 2000000) :=
  ⟨(c6_gas_limit_selection ⟨true, true⟩ _ "SHIP123" "Factory" "created" "" (10 ^ 18) 7
      "0xabc123" ⟨41, 30000, 1⟩ rfl rfl (by decide) (by decide) (by decide) rfl (by decide)
      rfl rfl rfl).1 100000 rfl (by decide),
   (c6_gas_limit_selection ⟨true, true⟩ _ "SHIP123" "Factory" "created" "" (10 ^ 18) 7
      "0xabc123" ⟨41, 30000, 1⟩ rfl rfl (by decide) (by decide) (by decide) rfl (by decide)
      rfl rfl rfl).2 "execution reverted" rfl⟩

/-- The tracked `last_block` never decreases over a run of the polling loop. -/
theorem le_finalLastBlock (heads : List Nat) : ∀ last : Nat, last ≤ finalLastBlock last heads := by
  induction heads with
  | nil => intro last; simp [finalLastBlock]
  | cons c rest ih =>
    intro last
    by_cases hlt : last < c
    · simpa [finalLastBlock, hlt] using le_trans (le_of_lt hlt) (ih c)
    · simpa [finalLastBlock, hlt] using ih last

/-- The first range a polling run emits starts at `last + 1` — the block right
after the previously observed head — even if some head observations are
skipped first. -/
theorem pollScanRanges_head_start (heads : List Nat) : ∀ last : Nat,
    ∀ p ∈ (pollScanRanges last heads).head?, p.1 = last + 1 := by
  induction heads with
  | nil => intro last p hp; simp [pollScanRanges] at hp
  | cons c rest ih =>
    intro last p hp
    by_cases hlt : last < c
    · simp [pollScanRanges, hlt] at hp
      obtain ⟨h1, h2⟩ := hp
      omega
    · simp only [pollScanRanges, if_neg hlt] at hp
      exact ih last p hp

/-- Consecutive emitted scan ranges chain: each starts one block after the
previous range's end (its observed head). -/
theorem pollScanRanges_chain (heads : List Nat) : ∀ last : Nat,
    List.Chain' (fun r1 r2 : Nat × Nat => r2.1 = r1.2 + 1) (pollScanRanges last heads) := by
  induction heads with
  | nil => intro last; simp [pollScanRanges]
  | cons c rest ih =>
    intro last
    by_cases hlt : last < c
    · simp only [pollScanRanges, if_pos hlt]
      rw [List.chain'_cons']
      exact ⟨fun p hp => pollScanRanges_head_start rest c p hp, ih c⟩
    · simpa [pollScanRanges, hlt] using ih last

/-- Each block after the initial head and up to the final tracked head lies in
exactly one emitted scan range; every other block lies in none. -/
theorem scanCount_pollScanRanges (heads : List Nat) : ∀ last b : Nat,
    scanCount (pollScanRanges last heads) b =
      if last < b ∧ b ≤ finalLastBlock last heads then 1 else 0 := by
  induction heads with
  | nil =>
    intro last b
    simp only [pollScanRanges, finalLastBlock, scanCount]
    split_ifs with hcond
    · omega
    · rfl
  | cons c rest ih =>
    intro last b
    by_cases hlt : last < c
    · have hF := le_finalLastBlock rest c
      simp only [pollScanRanges, finalLastBlock, if_pos hlt, scanCount, ih]
      split_ifs <;> omega
    · simp only [pollScanRanges, finalLastBlock, if_neg hlt]
      exact ih last b

/-- C3: over an uninterrupted run of the polling loop, the scan ranges tile
the blocks after the starting head exactly: every block between the initial
head (exclusive) and the final tracked head (inclusive) is scanned exactly
once and every other block zero times, and each scan's `fromBlock` is the
previous scan's observed head + 1. -/
theorem c3_each_block_scanned_once (heads : List Nat) (last b : Nat) :
    scanCount (pollScanRanges last heads) b =
      (if last < b ∧ b ≤ finalLastBlock last heads then 1 else 0) ∧
    List.Chain' (fun r1 r2 : Nat × Nat => r2.1 = r1.2 + 1) (pollScanRanges last heads) :=
  ⟨scanCount_pollScanRanges heads last b, pollScanRanges_chain heads last⟩

/-- Counterexample to C4 as stated: with a shutdown request pending, the
polling loop has not stopped after five iterations — its guard is still true
and the thread is a daemon (killed abruptly at process exit, not drained). -/
theorem c4_no_clean_shutdown_counterexample :
    pollStopsWithin true 5 = false ∧ pollLoopGuard true = true ∧
    pollThreadIsDaemon = true := by decide

/-- C4 as amended: the polling loop of `listen_for_new_events` has no
cancellation mechanism at all — whatever shutdown request is pending, its
guard (`while True`) never becomes false, so it never stops within any number
of iterations; the background thread is started with `daemon=True`, so the
only way it ends is being killed abruptly at process exit. -/
theorem c4_polling_never_stops (stopRequested : Bool) (n : Nat) :
    pollStopsWithin stopRequested n = false ∧ pollThreadIsDaemon = true := by
  refine ⟨?_, rfl⟩
  induction n with
  | zero => rfl
  | succ k ih => simpa [pollStopsWithin, pollLoopGuard] using ih

/-- C7: the formatting loop of `get_recent_events` keeps every event of the
page: the output has the same length as the page, and the event at each
position is returned with its fields copied and its shipment id equal to the
decoded plaintext id when the secondary lookup succeeded and "Unknown" when
it failed — a per-event failure affects only that event's shipment id. -/
theorem c7_lookup_failure_isolated (events : List RawEvent) (limit : Nat) :
    (get_recent_events events limit).length = (eventPage events limit).length ∧
    ∀ (i : Nat) (e : RawEvent), (eventPage events limit)[i]? = some e →
      (get_recent_events events limit)[i]? = some
        { shipmentId := e.txDecode.getD "Unknown", timestamp := e.timestamp,
          location := e.location, status := e.status, submittedBy := e.submittedBy,
          blockNumber := e.blockNumber, transactionHash := e.transactionHash } := by
  constructor
  · simp [get_recent_events]
  · intro i e he
    simp [get_recent_events, List.getElem?_map, he, formatEvent]

/-- Witness for C7: a two-event page whose second event's secondary lookup
failed still returns both events, the first with its decoded id and the
second with id "Unknown". -/
theorem c7_lookup_failure_isolated_witness :
    (get_recent_events
        [⟨some "SHIP123", 1, "Factory", "created", "0xaaa", 10, "0xh1"⟩,
         ⟨none, 2, "Port", "customs", "0xbbb", 11, "0xh2"⟩] 10).length =
      (eventPage
        [⟨some "SHIP123", 1, "Factory", "created", "0xaaa", 10, "0xh1"⟩,
         ⟨none, 2, "Port", "customs", "0xbbb", 11, "0xh2"⟩] 10).length ∧
    (get_recent_events
        [⟨some "SHIP123", 1, "Factory", "created", "0xaaa", 10, "0xh1"⟩,
         ⟨none, 2, "Port", "customs", "0xbbb", 11, "0xh2"⟩] 10)[1]? =
      some ⟨"Unknown", 2, "Port", "customs", "0xbbb", 11, "0xh2"⟩ :=
  ⟨(c7_lookup_failure_isolated
      [⟨some "SHIP123", 1, "Factory", "created", "0xaaa", 10, "0xh1"⟩,
       ⟨none, 2, "Port", "customs", "0xbbb", 11, "0xh2"⟩] 10).1,
   (c7_lookup_failure_isolated
      [⟨some "SHIP123", 1, "Factory", "created", "0xaaa", 10, "0xh1"⟩,
       ⟨none, 2, "Port", "customs", "0xbbb", 11, "0xh2"⟩] 10).2 1
      ⟨none, 2, "Port", "customs", "0xbbb", 11, "0xh2"⟩ rfl⟩

/-- Counterexample to C8 as stated: `setup_account` in the simulation script
prints the line built from `private_key[:10]` — for the concrete key below
the printed output contains its first ten characters, a non-empty substring
of the key, so the claim that no printed output contains any substring of
the key is false. -/
theorem c8_key_prefix_printed_counterexample :
    ((setupAccountOutput "0xdeadbeefcafe0123" "0xf39F" "9999.9999" 1).any
        (fun line => strContainsSub line (("0xdeadbeefcafe0123").take 10))) = true ∧
    ("0xdeadbeefcafe0123").take 10 ≠ "" ∧
    strContainsSub "0xdeadbeefcafe0123" (("0xdeadbeefcafe0123").take 10) = true := by decide

/-- C8 as amended: `Web3Manager._load_config` never prints the key — its
output is the same for any two keys that agree on being set, revealing only
the Yes/No marker — but the simulation script's `setup_account` prints the
first ten characters of every non-empty key it is given. -/
theorem c8_key_logging :
    (∀ (rld : Option String) (url addr k1 k2 : String), (k1 = "" ↔ k2 = "") →
      loadConfigOutput rld url k1 addr = loadConfigOutput rld url k2 addr) ∧
    (∀ (k a bs : String) (bw : Nat), k ≠ "" →
      ("🔍 Debug: Private key from env: " ++ k.take 10 ++ "...") ∈
        setupAccountOutput k a bs bw) := by
  constructor
  · intro rld url addr k1 k2 hk
    by_cases h1 : k1 = ""
    · have h2 := hk.mp h1
      simp [loadConfigOutput, h1, h2]
    · have h2 : ¬ k2 = "" := fun he => h1 (hk.mpr he)
      simp [loadConfigOutput, h1, h2]
  · intro k a bs bw hk
    simp [setupAccountOutput, hk]

/-- Witness for C8 (amended): two distinct non-empty keys produce identical
`_load_config` output, and a concrete key's ten-character prefix line is
among `setup_account`'s printed lines. -/
theorem c8_key_logging_witness :
    loadConfigOutput none "http://127.0.0.1:8545" "0xkey1" "0xc0ffee" =
      loadConfigOutput none "http://127.0.0.1:8545" "0xkey2" "0xc0ffee" ∧
    ("🔍 Debug: Private key from env: " ++ ("0xdeadbeefcafe0123").take 10 ++ "...") ∈
      setupAccountOutput "0xdeadbeefcafe0123" "0xf39F" "9999.9999" 1 :=
  ⟨c8_key_logging.1 none "http://127.0.0.1:8545" "0xc0ffee" "0xkey1" "0xkey2" (by simp),
   c8_key_logging.2 "0xdeadbeefcafe0123" "0xf39F" "9999.9999" 1 (by simp)⟩

/-- C9: for a connected handle and non-empty shipment id,
`get_checkpoint_count` returns whatever count the contract call returns —
in particular an explicit zero comes back as `Except.ok 0`, not an error —
while any raised call failure surfaces as a classified read error, never
conflated with a zero result. -/
theorem c9_zero_count_not_error (call : String → Except String Nat) (sid : String)
    (hs : pyBlank sid = false) :
    (call (countQueryKey sid) = Except.ok 0 →
      get_checkpoint_count true call sid = Except.ok 0) ∧
    (∀ n : Nat, call (countQueryKey sid) = Except.ok n →
      get_checkpoint_count true call sid = Except.ok n) ∧
    (∀ m : String, call (countQueryKey sid) = Except.error m →
      ∃ e : ReadErr, get_checkpoint_count true call sid = Except.error e) := by
  refine ⟨?_, ?_, ?_⟩
  · intro hc
    simp [get_checkpoint_count, hs, hc]
  · intro n hc
    simp [get_checkpoint_count, hs, hc]
  · intro m hc
    simp only [get_checkpoint_count, Bool.true_eq_false, if_false, hs, hc]
    split_ifs <;> exact ⟨_, rfl⟩

/-- Witness for C9: a call returning zero yields `ok 0`; a call raising a
revert yields a read error. -/
theorem c9_zero_count_not_error_witness :
    get_checkpoint_count true (fun _ => Except.ok 0) "SHIP123" = Except.ok 0 ∧
    (∃ e : ReadErr, get_checkpoint_count true (fun _ => Except.error "execution reverted")
        "SHIP123" = Except.error e) :=
  ⟨(c9_zero_count_not_error (fun _ => Except.ok 0) "SHIP123" (by decide)).1 rfl,
   (c9_zero_count_not_error (fun _ => Except.error "execution reverted") "SHIP123"
      (by decide)).2.2 "execution reverted" rfl⟩

/-- C10: against one and the same contract state, `get_checkpoint_count`
queries the stripped identifier while `get_shipment_history` queries the
identifier unmodified; for an identifier with surrounding whitespace the two
reads hit different keys and can disagree — the concrete instance below has
checkpoint count 1 and an empty history for the same input string. -/
theorem c10_count_history_key_mismatch :
    (∀ (store : String → List Checkpoint) (s : String), pyBlank s = false →
      get_checkpoint_count true (fun k => Except.ok (store k).length) s =
        Except.ok (store (pyStrip s)).length ∧
      get_shipment_history true (fun k => Except.ok (store k)) s =
        Except.ok (store s)) ∧
    (∃ (store : String → List Checkpoint) (s : String), pyBlank s = false ∧
      pyStrip s ≠ s ∧
      get_checkpoint_count true (fun k => Except.ok (store k).length) s = Except.ok 1 ∧
      get_shipment_history true (fun k => Except.ok (store k)) s = Except.ok []) := by
  constructor
  · intro store s hs
    constructor
    · simp [get_checkpoint_count, countQueryKey, hs]
    · simp [get_shipment_history, historyQueryKey, hs]
  · refine ⟨fun k => if k = "A" then [⟨"A", 0, "Factory", "created", "", "0xaaa"⟩] else [],
      " A", by decide, by decide, ?_, ?_⟩
    · rfl
    · rfl

/-- Witness for C10: the key characterization instantiated at a concrete
store and the identifier "SHIP123". -/
theorem c10_count_history_key_mismatch_witness :
    get_checkpoint_count true
        (fun k => Except.ok (((fun _ => ([] : List Checkpoint)) k)).length) "SHIP123" =
      Except.ok (((fun _ => ([] : List Checkpoint)) (pyStrip "SHIP123"))).length ∧
    get_shipment_history true
        (fun k => Except.ok ((fun _ => ([] : List Checkpoint)) k)) "SHIP123" =
      Except.ok ((fun _ => ([] : List Checkpoint)) "SHIP123") :=
  c10_count_history_key_mismatch.1 (fun _ => []) "SHIP123" (by decide)
